import Mathlib

set_option maxRecDepth 8192

/-!
Verification of the offline-resilient sync and caching layer of the Spot
car-wash dashboard front end.  The definitions below are shallow embeddings
of the JavaScript source: the request gateway `apiCall`, the action replay
queue drain `syncOfflineActions`, the quick order actions, the connectivity
and visibility handlers with the live refresh scheduler, and the service
worker cache policy of `sw.js`.  Network and gateway outcomes are supplied
by the environment as explicit oracles (lists of per-attempt outcomes or
per-request functions), so every definition is executable.
-/

/-- HTTP method of a request. -/
inductive Method where
  | GET
  | POST
  | PUT
  | DELETE
  deriving DecidableEq, Repr

/-- Parsed JSON response envelope `\x7b success, error?.message \x7d` returned by the API. -/
structure Envelope where
  success : Bool
  errorMsg : Option String
  deriving DecidableEq, Repr

/-- Failure of a gateway call: the thrown `Error` either carries an HTTP status
(`HTTP error! status: s`, thrown on `!response.ok`) or stems from `fetch` itself
rejecting (network-level failure). -/
inductive ApiError where
  | httpError (status : Nat)
  | networkError
  deriving DecidableEq, Repr

/-- Outcome of a single `fetch` attempt, supplied by the environment:
the response was ok and parsed to `body`, or the response had a non-2xx
`status`, or the fetch itself failed at the network level. -/
inductive FetchOutcome where
  | ok (body : Envelope)
  | httpError (status : Nat)
  | networkError
  deriving DecidableEq, Repr

/-- What one attempt of the `try` block in `apiCall` produces:
`fetch` then the `!response.ok` check then `response.json()`. -/
def fetchResult : FetchOutcome → Except ApiError Envelope
  | .ok body => .ok body
  | .httpError s => .error (.httpError s)
  | .networkError => .error .networkError

/-- Result of an `apiCall` invocation: the returned envelope or the propagated
error, the final value of the shared `state.retryCount`, and the list of
backoff delays (in ms) awaited before each retry, in order. -/
structure ApiResult where
  result : Except ApiError Envelope
  retryCount : Nat
  delays : List Nat
  deriving Repr

/-- `SpotApp.config.maxRetries`. -/
def configMaxRetries : Nat := 3

/-- Shallow embedding of `SpotApp.apiCall(endpoint, method, data, customHeaders)`.
One `FetchOutcome` is consumed per attempt.  On a successful attempt the shared
retry counter is reset to 0 and the parsed body returned.  On any caught error
(HTTP non-2xx or network failure alike, since both are thrown inside the same
`try`), if `state.isOnline` and `retryCount < maxRetries` the counter is
incremented, `delay(1000 * retryCount)` is awaited and the same call is
reissued; otherwise the error propagates.  An exhausted oracle is treated as a
network failure that propagates (theorems only use adequately long oracles). -/
def apiCall (endpoint : String) (method : Method) (data : Option String)
    (isOnline : Bool) (retryCount : Nat) : List FetchOutcome → ApiResult
  | [] => ⟨.error .networkError, retryCount, []⟩
  | o :: rest =>
    match fetchResult o with
    | .ok body => ⟨.ok body, 0, []⟩
    | .error e =>
      if isOnline ∧ retryCount < configMaxRetries then
        let r := apiCall endpoint method data isOnline (retryCount + 1) rest
        ⟨r.result, r.retryCount, 1000 * (retryCount + 1) :: r.delays⟩
      else
        ⟨.error e, retryCount, []⟩

/-- While online with `rc + k ≤ maxRetries`, `k` consecutive network failures
followed by an ok response yield that response, with the k-th backoff delay
equal to `1000 * (rc + k)`. -/
theorem apiCall_consume_failures (ep : String) (m : Method) (d : Option String)
    (k : Nat) (body : Envelope) (rest : List FetchOutcome) :
    ∀ rc : Nat, rc + k ≤ configMaxRetries →
      apiCall ep m d true rc (List.replicate k .networkError ++ .ok body :: rest) =
        ⟨.ok body, 0, (List.range k).map (fun i => 1000 * (rc + i + 1))⟩ := by
  induction k with
  | zero => intro rc _; simp [apiCall, fetchResult]
  | succ n ih =>
    intro rc h
    have h1 : rc < configMaxRetries := by omega
    have h2 := ih (rc + 1) (by omega)
    rw [List.replicate_succ, List.cons_append]
    simp only [apiCall, fetchResult]
    rw [if_pos ⟨trivial, h1⟩]
    simp only [List.append_eq] at h2 ⊢
    rw [h2]
    simp only [List.range_succ_eq_map, List.map_cons, List.map_map, ApiResult.mk.injEq,
      List.cons.injEq, Nat.add_zero, true_and]
    apply List.map_congr_left
    intro i _
    simp only [Function.comp_apply]
    omega

/-- C5 witness companion fact is below; this is the main statement. -/
theorem apiCall_exhausts_retries (ep : String) (m : Method) (d : Option String)
    (rest : List FetchOutcome) :
    apiCall ep m d true 0 (List.replicate 4 .networkError ++ rest) =
      ⟨.error .networkError, 3, [1000, 2000, 3000]⟩ := by
  simp only [List.replicate, List.cons_append, apiCall, fetchResult, configMaxRetries]
  norm_num

/-- C5: for an `apiCall` started with the shared retry counter at zero while
online, each network-level failure triggers a retry of the same call with the
delay before retry attempt k equal to k × 1000 ms, up to the configured maximum
of 3 retries, after which the failure propagates; a failure while offline
propagates immediately with no retry and no delay. -/
theorem C5_gateway_linear_backoff (k : Nat) (hk : k ≤ configMaxRetries)
    (body : Envelope) (rest rest2 rest3 : List FetchOutcome) :
    apiCall "/search" .GET none true 0 (List.replicate k .networkError ++ .ok body :: rest) =
      ⟨.ok body, 0, (List.range k).map (fun i => 1000 * (i + 1))⟩ ∧
    apiCall "/search" .GET none true 0 (List.replicate 4 .networkError ++ rest2) =
      ⟨.error .networkError, 3, [1000, 2000, 3000]⟩ ∧
    apiCall "/search" .GET none false 0 (.networkError :: rest3) =
      ⟨.error .networkError, 0, []⟩ := by
  refine ⟨?_, ?_, ?_⟩
  · have h := apiCall_consume_failures "/search" .GET none k body rest 0 (by omega)
    simpa using h
  · exact apiCall_exhausts_retries "/search" .GET none rest2
  · simp [apiCall, fetchResult]

/-- Witness for C5 at k = 2: two network failures on `/search` while online,
then success, with delays 1000 ms and 2000 ms. -/
theorem C5_gateway_linear_backoff_witness :
    2 ≤ configMaxRetries ∧
    (apiCall "/search" .GET none true 0
        (List.replicate 2 .networkError ++ .ok ⟨true, none⟩ :: ([] : List FetchOutcome)) =
      ⟨.ok ⟨true, none⟩, 0, (List.range 2).map (fun i => 1000 * (i + 1))⟩ ∧
    apiCall "/search" .GET none true 0
        (List.replicate 4 .networkError ++ ([] : List FetchOutcome)) =
      ⟨.error .networkError, 3, [1000, 2000, 3000]⟩ ∧
    apiCall "/search" .GET none false 0 (.networkError :: ([] : List FetchOutcome)) =
      ⟨.error .networkError, 0, []⟩) :=
  ⟨by decide, C5_gateway_linear_backoff 2 (by decide) ⟨true, none⟩ [] [] []⟩

/-- C3 counterexample: a call whose first attempt returns HTTP 500 while the
monitor reports online and the shared counter is 0 is retried after a 1000 ms
delay (and here even succeeds on the second attempt), contradicting the claim
that a non-2xx fails immediately with no retry regardless of the online flag. -/
theorem C3_http_500_is_retried_online :
    apiCall "/dashboard-stats" .GET none true 0 [.httpError 500, .ok ⟨true, none⟩] =
      ⟨.ok ⟨true, none⟩, 0, [1000]⟩ := by
  simp [apiCall, fetchResult, configMaxRetries]

/-- C3 amended: an HTTP non-2xx propagates immediately, with no retry and no
delay, when the monitor reports offline or when the retry budget is exhausted;
while online with budget remaining it is retried exactly like a network
failure, with delay 1000 × (rc + 1) before the reissued call. -/
theorem C3_http_error_propagation (s rc : Nat) (rest : List FetchOutcome)
    (h : rc < configMaxRetries) :
    apiCall "/dashboard-stats" .GET none false rc (.httpError s :: rest) =
      ⟨.error (.httpError s), rc, []⟩ ∧
    apiCall "/dashboard-stats" .GET none true configMaxRetries (.httpError s :: rest) =
      ⟨.error (.httpError s), configMaxRetries, []⟩ ∧
    apiCall "/dashboard-stats" .GET none true rc (.httpError s :: rest) =
      ⟨(apiCall "/dashboard-stats" .GET none true (rc + 1) rest).result,
       (apiCall "/dashboard-stats" .GET none true (rc + 1) rest).retryCount,
       1000 * (rc + 1) :: (apiCall "/dashboard-stats" .GET none true (rc + 1) rest).delays⟩ := by
  refine ⟨?_, ?_, ?_⟩
  · simp [apiCall, fetchResult]
  · simp [apiCall, fetchResult]
  · simp only [apiCall, fetchResult]
    rw [if_pos ⟨trivial, h⟩]

/-- Witness for C3's amended statement at status 500 with counter 0. -/
theorem C3_http_error_propagation_witness :
    0 < configMaxRetries ∧
    (apiCall "/dashboard-stats" .GET none false 0 (.httpError 500 :: ([] : List FetchOutcome)) =
      ⟨.error (.httpError 500), 0, []⟩ ∧
    apiCall "/dashboard-stats" .GET none true configMaxRetries
        (.httpError 500 :: ([] : List FetchOutcome)) =
      ⟨.error (.httpError 500), configMaxRetries, []⟩ ∧
    apiCall "/dashboard-stats" .GET none true 0 (.httpError 500 :: ([] : List FetchOutcome)) =
      ⟨(apiCall "/dashboard-stats" .GET none true 1 []).result,
       (apiCall "/dashboard-stats" .GET none true 1 []).retryCount,
       1000 * 1 :: (apiCall "/dashboard-stats" .GET none true 1 []).delays⟩) :=
  ⟨by decide, C3_http_error_propagation 500 0 [] (by decide)⟩

/-- One queued offline mutating request, as placed in `state.syncQueue`.
JavaScript object identity is modelled as structural equality on the fields,
which is what `Array.prototype.indexOf` compares under for these objects. -/
structure PendingAction where
  endpoint : String
  method : Method
  data : Option String
  deriving DecidableEq, Repr

/-- The `for (const action of this.state.syncQueue)` loop of
`syncOfflineActions`, with JavaScript array-iterator semantics: the iterator
holds an index `i` into the live array; each step yields `arr[i]` and
increments `i`, stopping once `i ≥ arr.length`.  The body awaits the gateway
call for the yielded action (its outcome abstracted by the oracle `ok`); on
success it executes `syncQueue.splice(syncQueue.indexOf(action), 1)`, on
failure it leaves the action in place.  Returns the final array and the list
of gateway calls issued, in order.  The loop runs at most `arr.length` more
steps since `i` grows each step while the array never grows, so the fuel of
`syncOfflineActions` below is exact. -/
def drainLoop (ok : PendingAction → Bool) :
    Nat → List PendingAction → Nat → List PendingAction × List PendingAction
  | 0, arr, _ => (arr, [])
  | fuel + 1, arr, i =>
    if h : i < arr.length then
      let action := arr[i]
      if ok action then
        let r := drainLoop ok fuel (arr.eraseIdx (arr.findIdx (fun b => b == action))) (i + 1)
        (r.1, action :: r.2)
      else
        let r := drainLoop ok fuel arr (i + 1)
        (r.1, action :: r.2)
    else
      (arr, [])

/-- Shallow embedding of `SpotApp.syncOfflineActions`: returns early on an
empty queue, else drains with the for-of loop above.  Result: final
`state.syncQueue` and the sequence of gateway calls issued. -/
def syncOfflineActions (ok : PendingAction → Bool) (queue : List PendingAction) :
    List PendingAction × List PendingAction :=
  if queue.length = 0 then (queue, []) else drainLoop ok queue.length queue 0

/-- The two actions of the C1 scenario. -/
def startAction : PendingAction := ⟨"/orders/5/start", .POST, none⟩

/-- The second action of the C1 scenario. -/
def finishAction : PendingAction := ⟨"/orders/5/finish", .POST, none⟩

/-- C1: evaluation of the code at the claim's scenario.  With the queue
holding the start action then the finish action and every gateway call
succeeding, the drain pass issues ONLY the start call and leaves the finish
action in the queue: splicing the successful head shifts the array under the
live iterator, which then skips the next element.  The claim's expected
result (calls `[start, finish]`, final queue `[]`) does not hold. -/
theorem C1_drain_skips_after_success :
    syncOfflineActions (fun _ => true) [startAction, finishAction] =
      ([finishAction], [startAction]) := by
  decide

/-- First action of the C4 scenario: its gateway call fails. -/
def failAction : PendingAction := ⟨"/orders/7/start", .POST, none⟩

/-- Second action of the C4 scenario: its gateway call succeeds. -/
def okAction : PendingAction := ⟨"/orders/8/start", .POST, none⟩

/-- Third action of the C4 scenario: never attempted by the drain pass. -/
def thirdAction : PendingAction := ⟨"/orders/9/start", .POST, none⟩

/-- C4: evaluation of the code at a minimal failing input.  The gateway fails
for the action at queue position 1 and succeeds for position 2; position 3 is
then never attempted in this drain pass (the splice after the position-2
success shifts the array under the iterator), contradicting the claim that
positions i+1..n are all attempted.  The failed action does remain queued. -/
theorem C4_later_position_not_attempted :
    syncOfflineActions (fun a => a.endpoint != "/orders/7/start")
        [failAction, okAction, thirdAction] =
      ([failAction, thirdAction], [failAction, okAction]) := by
  decide

/-- The page-level mutable state touched by the quick order actions:
the connectivity flag, the shared retry counter and the offline queue. -/
structure AppState where
  isOnline : Bool
  retryCount : Nat
  syncQueue : List PendingAction
  deriving Repr

/-- Shallow embedding of `SpotApp.quickStartOrder(orderId)`.  The `confirm`
dialog answer and the fetch outcomes are supplied by the environment.  The
function calls `apiCall` on `/orders/{id}/start` and shows a toast; its only
state writes are those of `apiCall` (the retry counter).  Returns the new
state and the toast message shown, if any. -/
def quickStartOrder (orderId : String) (confirmed : Bool) (st : AppState)
    (outcomes : List FetchOutcome) : AppState × Option String :=
  if confirmed then
    let r := apiCall ("/orders/" ++ orderId ++ "/start") .POST none
        st.isOnline st.retryCount outcomes
    let st1 : AppState := { st with retryCount := r.retryCount }
    match r.result with
    | .ok env =>
      if env.success then (st1, some "Order started successfully")
      else (st1, some (env.errorMsg.getD "Failed to start order"))
    | .error _ => (st1, some "Failed to start order. Please try again.")
  else (st, none)

/-- Shallow embedding of `SpotApp.quickCompleteOrder(orderId)`, calling
`apiCall` on `/orders/{id}/finish`. -/
def quickCompleteOrder (orderId : String) (confirmed : Bool) (st : AppState)
    (outcomes : List FetchOutcome) : AppState × Option String :=
  if confirmed then
    let r := apiCall ("/orders/" ++ orderId ++ "/finish") .POST none
        st.isOnline st.retryCount outcomes
    let st1 : AppState := { st with retryCount := r.retryCount }
    match r.result with
    | .ok env =>
      if env.success then (st1, some "Order completed successfully")
      else (st1, some (env.errorMsg.getD "Failed to complete order"))
    | .error _ => (st1, some "Failed to complete order. Please try again.")
  else (st, none)

/-- C2: evaluation of the code against the claim.  Neither quick order action
ever modifies `state.syncQueue` — no code path in the source appends a
`PendingAction` — and in the claim's exact scenario (offline, gateway call
fails) the queue stays empty and the user only gets an error toast, so the
action IS silently lost, contradicting the claim. -/
theorem C2_quick_actions_never_enqueue :
    (∀ (oid : String) (c : Bool) (st : AppState) (os : List FetchOutcome),
      ((quickStartOrder oid c st os).1).syncQueue = st.syncQueue ∧
      ((quickCompleteOrder oid c st os).1).syncQueue = st.syncQueue) ∧
    (quickStartOrder "5" true ⟨false, 0, []⟩ [.networkError]).1.syncQueue = [] ∧
    (quickStartOrder "5" true ⟨false, 0, []⟩ [.networkError]).2 =
      some "Failed to start order. Please try again." := by
  refine ⟨fun oid c st os => ⟨?_, ?_⟩, ?_, ?_⟩
  · unfold quickStartOrder
    split
    · dsimp only
      split
      · split <;> rfl
      · rfl
    · rfl
  · unfold quickCompleteOrder
    split
    · dsimp only
      split
      · split <;> rfl
      · rfl
    · rfl
  · rfl
  · rfl

/-- `document.visibilityState` as tracked in `state.pageVisibility`. -/
inductive Visibility where
  | visible
  | hidden
  deriving DecidableEq, Repr

/-- The page state relevant to the live refresh scheduler: the connectivity
flag, the tracked visibility, whether `state.refreshTimer` holds an armed
interval timer, and `window.location.pathname`. -/
structure PageState where
  isOnline : Bool
  pageVisibility : Visibility
  timerArmed : Bool
  path : String
  deriving DecidableEq, Repr

/-- `charsStartWith l p`: the character list `p` is an initial segment of `l`. -/
def charsStartWith : List Char → List Char → Bool
  | _, [] => true
  | [], _ :: _ => false
  | a :: as, b :: bs => (a == b) && charsStartWith as bs

/-- `charsInclude p l`: the character list `p` occurs contiguously in `l`. -/
def charsInclude (p : List Char) : List Char → Bool
  | [] => p.isEmpty
  | c :: t => charsStartWith (c :: t) p || charsInclude p t

/-- JavaScript `s.includes(p)`: substring containment. -/
def strIncludes (s p : String) : Bool := charsInclude p.data s.data

/-- JavaScript `s.startsWith(p)`. -/
def strStartsWith (s p : String) : Bool := charsStartWith s.data p.data

/-- The `refreshablePages` list inside `shouldRefreshCurrentPage`. -/
def refreshablePages : List String := ["/dashboard", "/queue", "/new-order"]

/-- `SpotApp.shouldRefreshCurrentPage()`: some refreshable path occurs in
`window.location.pathname`. -/
def shouldRefreshCurrentPage (path : String) : Bool :=
  refreshablePages.any (fun p => strIncludes path p)

/-- `SpotApp.refreshCurrentPage()` issues its `apiCall('/dashboard-stats')`
fetch exactly when `shouldRefreshCurrentPage()` holds; it performs no
visibility or connectivity check of its own.  Returns whether the fetch was
initiated. -/
def refreshCurrentPage (path : String) : Bool := shouldRefreshCurrentPage path

/-- `SpotApp.startRealTimeUpdates()`: returns unchanged while offline,
otherwise clears any existing timer and arms a new one. -/
def startRealTimeUpdates (st : PageState) : PageState :=
  if st.isOnline then { st with timerArmed := true } else st

/-- `SpotApp.stopRealTimeUpdates()`: disarms the timer. -/
def stopRealTimeUpdates (st : PageState) : PageState := { st with timerArmed := false }

/-- `SpotApp.handleVisibilityChange()`: records the new visibility; on
becoming visible it calls `refreshCurrentPage()` (unconditionally) and
`startRealTimeUpdates()`; on becoming hidden it stops the scheduler.
Returns the new state and whether a refresh fetch was initiated. -/
def handleVisibilityChange (v : Visibility) (st : PageState) : PageState × Bool :=
  let st1 := { st with pageVisibility := v }
  if v = Visibility.visible then
    (startRealTimeUpdates st1, refreshCurrentPage st1.path)
  else
    (stopRealTimeUpdates st1, false)

/-- One firing of the interval timer armed by `startRealTimeUpdates`: the
callback fetches only when the timer is armed, the page is visible, the
monitor reports online and the page is refreshable. -/
def timerTick (st : PageState) : Bool :=
  st.timerArmed && (st.pageVisibility == Visibility.visible) && st.isOnline &&
    refreshCurrentPage st.path

/-- C7 counterexample: with the monitor reporting offline on `/dashboard`,
a visibility change to visible initiates a refresh fetch — the handler calls
`refreshCurrentPage()` without consulting `isOnline`, contradicting the claim
that no fetch occurs while `isOnline = false` for either trigger. -/
theorem C7_visibility_refresh_ignores_offline :
    (handleVisibilityChange Visibility.visible
        ⟨false, Visibility.hidden, false, "/dashboard"⟩).2 = true := by
  decide

/-- C7 amended: a scheduler timer tick is a no-op unless the page is visible
AND the monitor reports online (in particular no tick fetches while
`isOnline = false`), but the visibility-change trigger differs: on becoming
visible it initiates a refresh fetch whenever the page is refreshable,
regardless of `isOnline`; on becoming hidden it never fetches. -/
theorem C7_tick_requires_visible_online (b t : Bool) (v : Visibility) (p : String)
    (st : PageState) :
    timerTick ⟨false, v, t, p⟩ = false ∧
    timerTick ⟨b, Visibility.hidden, t, p⟩ = false ∧
    (handleVisibilityChange Visibility.visible st).2 = refreshCurrentPage st.path ∧
    (handleVisibilityChange Visibility.hidden st).2 = false := by
  refine ⟨?_, ?_, rfl, rfl⟩
  · simp [timerTick]
  · simp [timerTick]

/-- A request as seen by the service worker fetch handler: its origin, URL
path, HTTP method, and `request.destination`. -/
structure SWRequest where
  origin : String
  path : String
  method : Method
  destination : String
  deriving DecidableEq, Repr

/-- A network response: its HTTP status and whether `response.type` is
`error` (an opaque network-error response). -/
structure SWResponse where
  status : Nat
  errType : Bool
  deriving DecidableEq, Repr

/-- Outcome of one network `fetch` issued by the worker. -/
inductive NetOutcome where
  | ok (resp : SWResponse)
  | fail
  deriving DecidableEq, Repr

/-- One named cache: a list of entries keyed by the stored request
(the Cache API keys entries by request URL; only GET requests can be
stored, see `cachePut`). -/
abbrev CachePartition := List (SWRequest × SWResponse)

/-- The CacheStorage visible to `caches.*`: named caches in creation order. -/
abbrev CacheStorage := List (String × CachePartition)

/-- `CACHE_NAME` in sw.js. -/
def CACHE_NAME : String := "spot-carwash-v1"

/-- `RUNTIME_CACHE` in sw.js. -/
def RUNTIME_CACHE : String := "spot-runtime-v1"

/-- The page origin (`location.origin` of the worker). -/
def selfOrigin : String := "https://spot.example"

/-- `STATIC_ASSETS` in sw.js: the install-time precache manifest. -/
def STATIC_ASSETS : List String :=
  ["/", "/static/css/style.css", "/static/js/app.js", "/dashboard", "/queue"]

/-- `response.ok`: the status is in the 2xx range. -/
def responseOk (r : SWResponse) : Bool := decide (200 ≤ r.status ∧ r.status < 300)

/-- Replace any entry for the same URL in one cache, appending the new entry
(the Cache API batch operation deletes matching entries then appends). -/
def putInPartition (part : CachePartition) (req : SWRequest) (resp : SWResponse) :
    CachePartition :=
  part.filter (fun e => e.1.path != req.path) ++ [(req, resp)]

/-- Models `caches.open(name)` followed by `cache.put(request, response)` of
the Web Cache API: `open` creates the named cache if absent; `put` REJECTS a
non-GET request with a TypeError, leaving the storage unchanged — sw.js calls
`put` for every ok API response without checking the method and relies on
this platform behaviour for mutating requests. -/
def cachePut (st : CacheStorage) (name : String) (req : SWRequest) (resp : SWResponse) :
    CacheStorage :=
  if req.method != Method.GET then st
  else if st.any (fun p => p.1 == name) then
    st.map (fun p => if p.1 == name then (p.1, putInPartition p.2 req resp) else p)
  else
    st ++ [(name, putInPartition [] req resp)]

/-- First entry of one cache matching a URL. -/
def partitionMatch (part : CachePartition) (path : String) : Option SWResponse :=
  (part.find? (fun e => e.1.path == path)).map Prod.snd

/-- `caches.match(url)`: searches every cache in creation order. -/
def cachesMatchPath (st : CacheStorage) (path : String) : Option SWResponse :=
  match st with
  | [] => none
  | (_, part) :: rest =>
    match partitionMatch part path with
    | some r => some r
    | none => cachesMatchPath rest path

/-- `caches.match(request)`: a non-GET request never matches. -/
def cachesMatch (st : CacheStorage) (req : SWRequest) : Option SWResponse :=
  if req.method != Method.GET then none else cachesMatchPath st req.path

/-- `fetchAndCache(request)` of sw.js: fetch from network; cache a copy into
`RUNTIME_CACHE` only when the response exists with status exactly 200 and is
not an error-type response; return the network response.  A network failure
makes the returned promise reject (modelled as `none`). -/
def fetchAndCacheSW (st : CacheStorage) (req : SWRequest) (net : NetOutcome) :
    CacheStorage × Option SWResponse :=
  match net with
  | .fail => (st, none)
  | .ok resp =>
    if resp.status == 200 && !resp.errType then
      (cachePut st RUNTIME_CACHE req resp, some resp)
    else
      (st, some resp)

/-- The storage and the response produced by one run of the fetch handler. -/
structure FetchHandled where
  storage : CacheStorage
  response : Option SWResponse
  deriving DecidableEq, Repr

/-- The sw.js `fetch` event listener.  Cross-origin requests are not
intercepted (the browser talks to the network directly).  API-prefixed
requests go network-first: an ok response is cached into `RUNTIME_CACHE` and
returned; a non-ok response is returned uncached; a network failure falls
back to `caches.match(request)`.  All other requests are cache-first: on a
hit, `fetchAndCache` re-fetches in the background (its own result discarded)
and the cached response is returned; on a miss, `fetchAndCache` is awaited;
if the chain rejects (miss plus network failure) a `document`-destination
request gets `caches.match('/offline.html')` and any other request gets no
response (`undefined`). -/
def handleFetch (st : CacheStorage) (req : SWRequest) (net : NetOutcome) : FetchHandled :=
  if req.origin != selfOrigin then
    match net with
    | .ok resp => ⟨st, some resp⟩
    | .fail => ⟨st, none⟩
  else if strStartsWith req.path "/api/" then
    match net with
    | .ok resp =>
      if responseOk resp then ⟨cachePut st RUNTIME_CACHE req resp, some resp⟩
      else ⟨st, some resp⟩
    | .fail => ⟨st, cachesMatch st req⟩
  else
    match cachesMatch st req with
    | some cached => ⟨(fetchAndCacheSW st req net).1, some cached⟩
    | none =>
      match net with
      | .ok resp => ⟨(fetchAndCacheSW st req (.ok resp)).1, some resp⟩
      | .fail =>
        if req.destination == "document" then ⟨st, cachesMatchPath st "/offline.html"⟩
        else ⟨st, none⟩

/-- The GET request `new Request(url, \x7b cache: 'reload' \x7d)` built by the
install step for a manifest URL. -/
def assetRequest (path : String) : SWRequest := ⟨selfOrigin, path, Method.GET, "document"⟩

/-- The sw.js `install` event listener: `cache.addAll` over `STATIC_ASSETS`
into `CACHE_NAME`.  `addAll` is atomic: it rejects unless every asset fetches
with an ok response, and on rejection the handler only logs, caching
nothing. -/
def installSW (st : CacheStorage) (net : String → NetOutcome) : CacheStorage :=
  if STATIC_ASSETS.all (fun u => match net u with | .ok r => responseOk r | .fail => false) then
    STATIC_ASSETS.foldl
      (fun s u =>
        match net u with
        | .ok r => cachePut s CACHE_NAME (assetRequest u) r
        | .fail => s)
      st
  else st

/-- `caches.delete(name)`: removes the named cache. -/
def cachesDelete (st : CacheStorage) (name : String) : CacheStorage :=
  st.filter (fun p => p.1 != name)

/-- The sw.js `activate` event listener: enumerate `caches.keys()`, keep the
names differing from both `CACHE_NAME` and `RUNTIME_CACHE`, and delete each
of those caches. -/
def activateSW (st : CacheStorage) : CacheStorage :=
  ((st.map Prod.fst).filter (fun n => n != CACHE_NAME && n != RUNTIME_CACHE)).foldl
    cachesDelete st

/-- An event consumed by the service worker, with its network oracle. -/
inductive SWEvent where
  | installEv (net : String → NetOutcome)
  | activateEv
  | fetchEv (req : SWRequest) (net : NetOutcome)

/-- One worker step: how each event transforms the cache storage. -/
def swStep (st : CacheStorage) : SWEvent → CacheStorage
  | .installEv net => installSW st net
  | .activateEv => activateSW st
  | .fetchEv req net => (handleFetch st req net).storage

/-- A reachable cache storage: the fold of any event sequence from the empty
storage. -/
def swRun (events : List SWEvent) : CacheStorage := events.foldl swStep []

/-- Every key stored in any cache partition is a GET request. -/
def goodStorage (st : CacheStorage) : Bool :=
  st.all (fun p => p.2.all (fun e => e.1.method == Method.GET))

/-- The partition stored under a name, if any. -/
def getPartition (st : CacheStorage) (name : String) : Option CachePartition :=
  (st.find? (fun p => p.1 == name)).map Prod.snd

/-- Unfolding of `goodStorage` to membership form. -/
theorem goodStorage_iff (st : CacheStorage) :
    goodStorage st = true ↔ ∀ p ∈ st, ∀ e ∈ p.2, e.1.method = Method.GET := by
  simp [goodStorage, List.all_eq_true]

/-- Entries after a `putInPartition` come from the old cache or are the new entry. -/
theorem mem_putInPartition {part : CachePartition} {req : SWRequest} {resp : SWResponse}
    {e : SWRequest × SWResponse} (he : e ∈ putInPartition part req resp) :
    e ∈ part ∨ e = (req, resp) := by
  unfold putInPartition at he
  rcases List.mem_append.mp he with h | h
  · exact Or.inl (List.mem_of_mem_filter h)
  · simp only [List.mem_singleton] at h
    exact Or.inr h

/-- `cachePut` preserves the all-keys-are-GET invariant: a non-GET put is
rejected by the platform, and a GET put only adds a GET key. -/
theorem goodStorage_cachePut (st : CacheStorage) (name : String) (req : SWRequest)
    (resp : SWResponse) (h : goodStorage st = true) :
    goodStorage (cachePut st name req resp) = true := by
  unfold cachePut
  split
  · exact h
  · rename_i hm
    have hGET : req.method = Method.GET := by
      simpa using hm
    split
    · rw [goodStorage_iff] at h ⊢
      intro p hp e he
      rcases List.mem_map.mp hp with ⟨q, hq, rfl⟩
      split at he
      · rcases mem_putInPartition he with h1 | h1
        · exact h q hq e h1
        · rw [h1]
          exact hGET
      · exact h q hq e he
    · rw [goodStorage_iff] at h ⊢
      intro p hp e he
      rcases List.mem_append.mp hp with h1 | h1
      · exact h p h1 e he
      · simp only [List.mem_singleton] at h1
        subst h1
        rcases mem_putInPartition he with h2 | h2
        · simp at h2
        · rw [h2]
          exact hGET

/-- `fetchAndCache` preserves the all-keys-are-GET invariant. -/
theorem goodStorage_fetchAndCacheSW (st : CacheStorage) (req : SWRequest)
    (net : NetOutcome) (h : goodStorage st = true) :
    goodStorage (fetchAndCacheSW st req net).1 = true := by
  cases net with
  | fail => exact h
  | ok resp =>
    unfold fetchAndCacheSW
    dsimp only
    split
    · exact goodStorage_cachePut st RUNTIME_CACHE req resp h
    · exact h

/-- The fetch handler preserves the all-keys-are-GET invariant. -/
theorem goodStorage_handleFetch (st : CacheStorage) (req : SWRequest)
    (net : NetOutcome) (h : goodStorage st = true) :
    goodStorage (handleFetch st req net).storage = true := by
  cases net with
  | ok resp =>
    unfold handleFetch
    dsimp only
    split
    · exact h
    · split
      · split
        · exact goodStorage_cachePut st RUNTIME_CACHE req resp h
        · exact h
      · split
        · exact goodStorage_fetchAndCacheSW st req (.ok resp) h
        · exact goodStorage_fetchAndCacheSW st req (.ok resp) h
  | fail =>
    unfold handleFetch
    dsimp only
    split
    · exact h
    · split
      · exact h
      · split
        · exact goodStorage_fetchAndCacheSW st req .fail h
        · split <;> exact h

/-- The install step's `addAll` fold preserves the all-keys-are-GET
invariant: every precached request is a GET. -/
theorem goodStorage_addAll (net : String → NetOutcome) (l : List String) :
    ∀ st : CacheStorage, goodStorage st = true →
      goodStorage (l.foldl
        (fun s u =>
          match net u with
          | .ok r => cachePut s CACHE_NAME (assetRequest u) r
          | .fail => s) st) = true := by
  induction l with
  | nil => intro st h; exact h
  | cons u t ih =>
    intro st h
    rw [List.foldl_cons]
    apply ih
    cases hnu : net u
    · exact goodStorage_cachePut st CACHE_NAME (assetRequest u) _ h
    · exact h

/-- `installSW` preserves the all-keys-are-GET invariant. -/
theorem goodStorage_installSW (st : CacheStorage) (net : String → NetOutcome)
    (h : goodStorage st = true) : goodStorage (installSW st net) = true := by
  unfold installSW
  split
  · exact goodStorage_addAll net STATIC_ASSETS st h
  · exact h

/-- Filtering the storage preserves the all-keys-are-GET invariant. -/
theorem goodStorage_filter (st : CacheStorage) (p : String × CachePartition → Bool)
    (h : goodStorage st = true) : goodStorage (st.filter p) = true := by
  rw [goodStorage_iff] at h ⊢
  intro q hq e he
  exact h q (List.mem_of_mem_filter hq) e he

/-- The activation deletes preserve the all-keys-are-GET invariant. -/
theorem goodStorage_activateSW (st : CacheStorage) (h : goodStorage st = true) :
    goodStorage (activateSW st) = true := by
  unfold activateSW
  generalize (st.map Prod.fst).filter (fun n => n != CACHE_NAME && n != RUNTIME_CACHE) = L
  induction L generalizing st with
  | nil => exact h
  | cons n t ih =>
    rw [List.foldl_cons]
    exact ih (cachesDelete st n) (goodStorage_filter st _ h)

/-- C6: in every reachable cache storage (any event sequence from the empty
storage), every key of every cache partition is a GET request: mutating
requests are never stored as cache entries — the fetch handler's API branch
calls `cache.put` for every ok response, but the Cache API rejects non-GET
puts, so no POST/PUT/DELETE key ever appears. -/
theorem C6_mutating_requests_never_cached (events : List SWEvent) :
    goodStorage (swRun events) = true := by
  unfold swRun
  have main : ∀ (evs : List SWEvent) (st : CacheStorage), goodStorage st = true →
      goodStorage (evs.foldl swStep st) = true := by
    intro evs
    induction evs with
    | nil => intro st h; exact h
    | cons ev t ih =>
      intro st h
      rw [List.foldl_cons]
      apply ih
      cases ev with
      | installEv net => exact goodStorage_installSW st net h
      | activateEv => exact goodStorage_activateSW st h
      | fetchEv req net => exact goodStorage_handleFetch st req net h
  exact main events [] rfl

/-- A network oracle on which every asset fetch succeeds with a plain 200. -/
def allOk200 : String → NetOutcome := fun _ => .ok ⟨200, false⟩

/-- C8: evaluation of the code against the claim.  After a fresh install in
which every static asset was fetched successfully, a document request (here
`/payments`) for which both the cache lookup and the network fail produces NO
response at all: the fallback branch looks up `'/offline.html'`, but that URL
is not in `STATIC_ASSETS` and was never cached, so `caches.match` misses and
the handler resolves with `undefined` instead of the designated offline
fallback document. -/
theorem C8_offline_fallback_never_precached :
    (handleFetch (installSW [] allOk200)
        ⟨selfOrigin, "/payments", Method.GET, "document"⟩ .fail).response = none ∧
    STATIC_ASSETS.contains "/offline.html" = false := by
  constructor
  · decide
  · decide

/-- The activation fold of `caches.delete` over a list of names filters the
storage down to the caches whose name is in none of them. -/
theorem foldl_cachesDelete_eq_filter (L : List String) :
    ∀ st : CacheStorage, L.foldl cachesDelete st =
      st.filter (fun p => !(L.contains p.1)) := by
  induction L with
  | nil =>
    intro st
    have hpred : (fun (p : String × CachePartition) => !(([] : List String).contains p.1)) =
        fun _ => true := rfl
    rw [List.foldl_nil, hpred, List.filter_true]
  | cons n L ih =>
    intro st
    rw [List.foldl_cons, ih]
    unfold cachesDelete
    rw [List.filter_filter]
    apply List.filter_congr
    intro p _
    simp only [List.contains_cons, Bool.not_or, bne, Bool.and_comm]

/-- `activateSW` keeps exactly the caches named by a current version tag. -/
theorem activateSW_eq_filter (st : CacheStorage) :
    activateSW st =
      st.filter (fun p => p.1 == CACHE_NAME || p.1 == RUNTIME_CACHE) := by
  unfold activateSW
  rw [foldl_cachesDelete_eq_filter]
  apply List.filter_congr
  intro p hp
  by_cases hc : p.1 = CACHE_NAME ∨ p.1 = RUNTIME_CACHE
  · have hnot : ¬ p.1 ∈ (st.map Prod.fst).filter
        (fun n => n != CACHE_NAME && n != RUNTIME_CACHE) := by
      intro hmem
      rcases List.mem_filter.mp hmem with ⟨_, hkeep⟩
      rcases hc with hc | hc <;> simp [hc] at hkeep
    rcases hc with hc | hc <;> simp [hnot, hc]
  · push_neg at hc
    have hmem : p.1 ∈ (st.map Prod.fst).filter
        (fun n => n != CACHE_NAME && n != RUNTIME_CACHE) := by
      refine List.mem_filter.mpr ⟨List.mem_map.mpr ⟨p, hp, rfl⟩, ?_⟩
      simp [bne, hc.1, hc.2]
    simp [hmem, hc.1, hc.2]

/-- C9: on activation every cache partition whose name differs from both
current version tags is deleted: afterwards the enumeration holds only
partitions named `spot-carwash-v1` or `spot-runtime-v1`; every differently
named partition of the old storage is absent; every current-tag partition of
the old storage survives. -/
theorem C9_activation_deletes_old_partitions (st : CacheStorage) :
    (activateSW st).all (fun p => p.1 == CACHE_NAME || p.1 == RUNTIME_CACHE) = true ∧
    st.all (fun p => (p.1 == CACHE_NAME || p.1 == RUNTIME_CACHE) ||
      !((activateSW st).contains p)) = true ∧
    st.all (fun p => !(p.1 == CACHE_NAME || p.1 == RUNTIME_CACHE) ||
      ((activateSW st).contains p)) = true := by
  rw [activateSW_eq_filter]
  refine ⟨?_, ?_, ?_⟩
  · rw [List.all_eq_true]
    intro p hp
    exact (List.mem_filter.mp hp).2
  · rw [List.all_eq_true]
    intro p hp
    by_cases htag : (p.1 == CACHE_NAME || p.1 == RUNTIME_CACHE) = true
    · rw [htag]
      rfl
    · have hnmem : ¬ p ∈ st.filter (fun q => q.1 == CACHE_NAME || q.1 == RUNTIME_CACHE) := by
        intro hmem
        exact htag (List.mem_filter.mp hmem).2
      simp [hnmem]
  · rw [List.all_eq_true]
    intro p hp
    by_cases htag : (p.1 == CACHE_NAME || p.1 == RUNTIME_CACHE) = true
    · have hmem : p ∈ st.filter (fun q => q.1 == CACHE_NAME || q.1 == RUNTIME_CACHE) :=
        List.mem_filter.mpr ⟨hp, htag⟩
      simp [hmem]
    · have hfalse : (p.1 == CACHE_NAME || p.1 == RUNTIME_CACHE) = false :=
        Bool.eq_false_iff.mpr htag
      simp [hfalse]

/-- A `cache.put` into one named cache leaves every other named partition
unchanged (map branch of `cachePut`). -/
theorem getPartition_map_put (st : CacheStorage) (cname n : String)
    (g : String × CachePartition → CachePartition) (h : (n == cname) = false) :
    getPartition (st.map (fun p => if p.1 == cname then (p.1, g p) else p)) n =
      getPartition st n := by
  have h2 : n ≠ cname := by simpa using h
  induction st with
  | nil => rfl
  | cons p t ih =>
    rw [List.map_cons]
    by_cases hpc : p.1 = cname
    · have hcf : (p.1 == cname) = true := by simpa using hpc
      have hpn : (p.1 == n) = false := by
        rw [hpc]
        exact beq_eq_false_iff_ne.mpr (Ne.symm h2)
      unfold getPartition
      rw [List.find?_cons_of_neg, List.find?_cons_of_neg]
      · exact ih
      · simpa using hpn
      · show ((if p.1 == cname then (p.1, g p) else p).1 == n) = true → False
        rw [if_pos hcf]
        simp [hpn]
    · have hcf : (p.1 == cname) = false := by simpa using hpc
      by_cases hpn : p.1 = n
      · have hpn1 : (p.1 == n) = true := by simpa using hpn
        unfold getPartition
        rw [List.find?_cons_of_pos, List.find?_cons_of_pos]
        · rw [if_neg (by simp [hcf])]
        · simpa using hpn1
        · rw [if_neg (by simp [hcf])]
          simpa using hpn1
      · have hpn1 : (p.1 == n) = false := by simpa using hpn
        unfold getPartition
        rw [List.find?_cons_of_neg, List.find?_cons_of_neg]
        · exact ih
        · simp [hpn1]
        · rw [if_neg (by simp [hcf])]
          simp [hpn1]

/-- Creating a fresh named cache at the end of the storage leaves every other
named partition unchanged (append branch of `cachePut`). -/
theorem getPartition_append_single (st : CacheStorage) (cname n : String)
    (part : CachePartition) (h : (n == cname) = false) :
    getPartition (st ++ [(cname, part)]) n = getPartition st n := by
  unfold getPartition
  rw [List.find?_append]
  have h2 : n ≠ cname := by simpa using h
  have hc : (cname == n) = false := beq_eq_false_iff_ne.mpr (Ne.symm h2)
  have hlast : List.find? (fun p => p.1 == n) [(cname, part)] = none := by
    simp [List.find?_cons, hc]
  rw [hlast]
  cases List.find? (fun p => p.1 == n) st <;> rfl

/-- `cachePut` into one named cache leaves every other named partition
unchanged. -/
theorem getPartition_cachePut_ne (st : CacheStorage) (cname : String) (req : SWRequest)
    (resp : SWResponse) (n : String) (h : (n == cname) = false) :
    getPartition (cachePut st cname req resp) n = getPartition st n := by
  unfold cachePut
  split
  · rfl
  · split
    · exact getPartition_map_put st cname n _ h
    · exact getPartition_append_single st cname n _ h

/-- `fetchAndCache` writes only the `RUNTIME_CACHE` partition. -/
theorem getPartition_fetchAndCacheSW (st : CacheStorage) (req : SWRequest)
    (net : NetOutcome) (n : String) (h : (n == RUNTIME_CACHE) = false) :
    getPartition (fetchAndCacheSW st req net).1 n = getPartition st n := by
  cases net with
  | fail => rfl
  | ok resp =>
    unfold fetchAndCacheSW
    dsimp only
    split
    · exact getPartition_cachePut_ne st RUNTIME_CACHE req resp n h
    · rfl

/-- The install fold over the asset manifest writes only `CACHE_NAME`. -/
theorem getPartition_addAll (netf : String → NetOutcome) (m : String)
    (h : (m == CACHE_NAME) = false) (l : List String) :
    ∀ s : CacheStorage,
      getPartition (l.foldl
        (fun s u =>
          match netf u with
          | .ok r => cachePut s CACHE_NAME (assetRequest u) r
          | .fail => s) s) m = getPartition s m := by
  induction l with
  | nil => intro s; rfl
  | cons u t ih =>
    intro s
    rw [List.foldl_cons, ih]
    cases hnu : netf u with
    | ok r => exact getPartition_cachePut_ne s CACHE_NAME (assetRequest u) r m h
    | fail => rfl

/-- `installSW` writes only the `CACHE_NAME` partition. -/
theorem getPartition_installSW (st : CacheStorage) (netf : String → NetOutcome)
    (m : String) (h : (m == CACHE_NAME) = false) :
    getPartition (installSW st netf) m = getPartition st m := by
  unfold installSW
  split
  · exact getPartition_addAll netf m h STATIC_ASSETS st
  · rfl

/-- C10: every response cached lazily by the fetch handler goes into the
runtime partition `spot-runtime-v1` and never into the static partition: a
fetch event leaves every partition other than `RUNTIME_CACHE` (in particular
`CACHE_NAME`) unchanged, and the install step is the only writer of
`CACHE_NAME`, leaving every other partition unchanged. -/
theorem C10_fetch_handler_writes_only_runtime (st : CacheStorage) (req : SWRequest)
    (net : NetOutcome) (netf : String → NetOutcome) (n m : String)
    (hn : n ≠ RUNTIME_CACHE) (hm : m ≠ CACHE_NAME) :
    getPartition (handleFetch st req net).storage n = getPartition st n ∧
    getPartition (installSW st netf) m = getPartition st m := by
  have hn1 : (n == RUNTIME_CACHE) = false := beq_eq_false_iff_ne.mpr hn
  have hm1 : (m == CACHE_NAME) = false := beq_eq_false_iff_ne.mpr hm
  constructor
  · cases net with
    | ok resp =>
      unfold handleFetch
      dsimp only
      split
      · rfl
      · split
        · split
          · exact getPartition_cachePut_ne st RUNTIME_CACHE req resp n hn1
          · rfl
        · split
          · exact getPartition_fetchAndCacheSW st req (.ok resp) n hn1
          · exact getPartition_fetchAndCacheSW st req (.ok resp) n hn1
    | fail =>
      unfold handleFetch
      dsimp only
      split
      · rfl
      · split
        · rfl
        · split
          · exact getPartition_fetchAndCacheSW st req .fail n hn1
          · split <;> rfl
  · exact getPartition_installSW st netf m hm1

/-- Witness for C10: the static and runtime tags differ, and at the empty
storage a failing fetch event leaves the static partition alone while an
install leaves the runtime partition alone. -/
theorem C10_fetch_handler_writes_only_runtime_witness :
    CACHE_NAME ≠ RUNTIME_CACHE ∧ RUNTIME_CACHE ≠ CACHE_NAME ∧
    (getPartition (handleFetch [] (assetRequest "/") .fail).storage CACHE_NAME =
        getPartition [] CACHE_NAME ∧
      getPartition (installSW [] allOk200) RUNTIME_CACHE = getPartition [] RUNTIME_CACHE) :=
  ⟨by decide, by decide,
    C10_fetch_handler_writes_only_runtime [] (assetRequest "/") .fail allOk200
      CACHE_NAME RUNTIME_CACHE (by decide) (by decide)⟩
